import Mathlib

/-!
Shallow embedding of the beryllium SDL2 wrapper (src/src/lib.rs).

The repository wraps a native C multimedia library.  Native pointers and
device ids are modelled as `Nat` (0 = null).  Machine integers `u32` are
modelled as `Nat` with explicit masking where the source masks.  The native
layer itself (SDL) is outside the repository; where a wrapper function's
result depends on a native call, the native call's outcome is an explicit
argument of the embedded function.
-/

namespace Beryllium

/-! ## Pixel format decoder (src/src/lib.rs, lines 743-1101)

The source defines `PixelFormatEnum`, a `u32`-repr enum of named SDL pixel
format codes, and accessor methods that decode bit fields of `self as u32`.
We embed the enum together with `toCode` (the `as u32` cast), and the
accessors as functions of the raw 32-bit code, exactly mirroring the
shift-and-mask structure of the source; the enum methods delegate to them.
-/

/-- The named pixel formats of the source's `PixelFormatEnum`. -/
inductive PixelFormatEnum
  | Unknown
  | Index1lsb
  | Index1msb
  | Index4lsb
  | Index4msb
  | Index8
  | RGB332
  | RGB444
  | RGB555
  | BGR555
  | ARGB4444
  | RGBA4444
  | ABGR4444
  | BGRA4444
  | ARGB1555
  | RGBA5551
  | ABGR1555
  | BGRA5551
  | RGB565
  | BGR565
  | RGB24
  | BGR24
  | RGB888
  | RGBX8888
  | BGR888
  | BGRX8888
  | ARGB8888
  | RGBA8888
  | ABGR8888
  | BGRA8888
  | ARGB2101010
  | YV12
  | IYUV
  | YUY2
  | UYVY
  | YVYU
  | NV12
  | NV21
  | ExternalOES
  deriving DecidableEq, Repr

/-- The `self as u32` cast of the source enum: each variant's SDL numeric
code (`SDL_PIXELFORMAT_*`, from the fermium bindings the enum's repr values
are taken from).  Non-fourcc codes follow SDL's
`(1 << 28) | (type << 24) | (order << 20) | (layout << 16) | (bits << 8) | bytes`
packing; fourcc codes are the four-character codes. -/
def PixelFormatEnum.toCode : PixelFormatEnum → Nat
  | .Unknown => 0
  | .Index1lsb => 0x11100100
  | .Index1msb => 0x11200100
  | .Index4lsb => 0x12100400
  | .Index4msb => 0x12200400
  | .Index8 => 0x13000801
  | .RGB332 => 0x14110801
  | .RGB444 => 0x15120C02
  | .RGB555 => 0x15130F02
  | .BGR555 => 0x15530F02
  | .ARGB4444 => 0x15321002
  | .RGBA4444 => 0x15421002
  | .ABGR4444 => 0x15721002
  | .BGRA4444 => 0x15821002
  | .ARGB1555 => 0x15331002
  | .RGBA5551 => 0x15441002
  | .ABGR1555 => 0x15731002
  | .BGRA5551 => 0x15841002
  | .RGB565 => 0x15151002
  | .BGR565 => 0x15551002
  | .RGB24 => 0x17101803
  | .BGR24 => 0x17401803
  | .RGB888 => 0x16161804
  | .RGBX8888 => 0x16261804
  | .BGR888 => 0x16561804
  | .BGRX8888 => 0x16661804
  | .ARGB8888 => 0x16362004
  | .RGBA8888 => 0x16462004
  | .ABGR8888 => 0x16762004
  | .BGRA8888 => 0x16862004
  | .ARGB2101010 => 0x16372004
  | .YV12 => 0x32315659
  | .IYUV => 0x56555949
  | .YUY2 => 0x32595559
  | .UYVY => 0x59565955
  | .YVYU => 0x55595659
  | .NV12 => 0x3231564E
  | .NV21 => 0x3132564E
  | .ExternalOES => 0x2053454F

/-- The source's `PixelType` enum (`SDL_PIXELTYPE_*`). -/
inductive PixelType
  | Unknown
  | Index1
  | Index4
  | Index8
  | Packed8
  | Packed16
  | Packed32
  | ArrayU8
  | ArrayU16
  | ArrayU32
  | ArrayF16
  | ArrayF32
  deriving DecidableEq, Repr

/-- The source's `BitmapPixelOrder` enum (`SDL_BITMAPORDER_*`). -/
inductive BitmapPixelOrder
  | None
  | _4321
  | _1234
  deriving DecidableEq, Repr

/-- The source's `PackedPixelOrder` enum (`SDL_PACKEDORDER_*`). -/
inductive PackedPixelOrder
  | None
  | XRGB
  | RGBX
  | ARGB
  | RGBA
  | XBGR
  | BGRX
  | ABGR
  | BGRA
  deriving DecidableEq, Repr

/-- The source's `ArrayPixelOrder` enum (`SDL_ARRAYORDER_*`). -/
inductive ArrayPixelOrder
  | None
  | RGB
  | RGBA
  | ARGB
  | BGR
  | BGRA
  | ABGR
  deriving DecidableEq, Repr

/-- The source's `PixelOrder` sum of the three order families. -/
inductive PixelOrder
  | Bitmap (o : BitmapPixelOrder)
  | Packed (o : PackedPixelOrder)
  | Array (o : ArrayPixelOrder)
  deriving DecidableEq, Repr

/-- The source's `PixelLayout` enum (`SDL_PACKEDLAYOUT_*`). -/
inductive PixelLayout
  | None
  | _332
  | _4444
  | _1555
  | _5551
  | _565
  | _8888
  | _2101010
  | _1010102
  deriving DecidableEq, Repr

/-- The `match` body of `PixelFormatEnum::pixel_type` over the type nibble
`(self as u32 >> 24) & 0x0F`; the `SDL_PIXELTYPE_*` constants it matches
against are 1..11 in declaration order, the `_` arm gives `Unknown`. -/
def pixelTypeOfNibble (n : Nat) : PixelType :=
  match n with
  | 1 => .Index1
  | 2 => .Index4
  | 3 => .Index8
  | 4 => .Packed8
  | 5 => .Packed16
  | 6 => .Packed32
  | 7 => .ArrayU8
  | 8 => .ArrayU16
  | 9 => .ArrayU32
  | 10 => .ArrayF16
  | 11 => .ArrayF32
  | _ => .Unknown

/-- `PixelFormatEnum::pixel_type` as a function of the raw code. -/
def pixelTypeOfCode (code : Nat) : PixelType :=
  pixelTypeOfNibble ((code >>> 24) &&& 0x0F)

/-- `PixelFormatEnum::is_fourcc` as a function of the raw code:
`(self as u32 > 0) && (((self as u32 >> 28) & 0x0F) != 1)`. -/
def isFourccOfCode (code : Nat) : Bool :=
  decide (code > 0) && decide (((code >>> 28) &&& 0x0F) ≠ 1)

/-- `PixelFormatEnum::is_indexed` as a function of the raw code. -/
def isIndexedOfCode (code : Nat) : Bool :=
  !isFourccOfCode code &&
    match pixelTypeOfCode code with
    | .Index1 | .Index4 | .Index8 => true
    | _ => false

/-- `PixelFormatEnum::is_packed` as a function of the raw code. -/
def isPackedOfCode (code : Nat) : Bool :=
  !isFourccOfCode code &&
    match pixelTypeOfCode code with
    | .Packed8 | .Packed16 | .Packed32 => true
    | _ => false

/-- `PixelFormatEnum::is_array` as a function of the raw code. -/
def isArrayOfCode (code : Nat) : Bool :=
  !isFourccOfCode code &&
    match pixelTypeOfCode code with
    | .ArrayU8 | .ArrayU16 | .ArrayU32 | .ArrayF16 | .ArrayF32 => true
    | _ => false

/-- The packed-order `match` of `PixelFormatEnum::pixel_order` over the
order nibble (`SDL_PACKEDORDER_*` are 1..8 in declaration order; the source
lists the arms in a different order, which does not change the mapping). -/
def packedOrderOfNibble (n : Nat) : PackedPixelOrder :=
  match n with
  | 7 => .ABGR
  | 3 => .ARGB
  | 8 => .BGRA
  | 6 => .BGRX
  | 4 => .RGBA
  | 2 => .RGBX
  | 5 => .XBGR
  | 1 => .XRGB
  | _ => .None

/-- The array-order `match` of `PixelFormatEnum::pixel_order`
(`SDL_ARRAYORDER_*` are 1..6 in declaration order). -/
def arrayOrderOfNibble (n : Nat) : ArrayPixelOrder :=
  match n with
  | 6 => .ABGR
  | 3 => .ARGB
  | 4 => .BGR
  | 5 => .BGRA
  | 1 => .RGB
  | 2 => .RGBA
  | _ => .None

/-- The bitmap-order `match` of `PixelFormatEnum::pixel_order`
(`SDL_BITMAPORDER_*`: 4321 = 1, 1234 = 2). -/
def bitmapOrderOfNibble (n : Nat) : BitmapPixelOrder :=
  match n with
  | 2 => ._1234
  | 1 => ._4321
  | _ => .None

/-- `PixelFormatEnum::pixel_order` as a function of the raw code: reads the
order nibble `(self as u32 >> 20) & 0x0F` and dispatches on
`is_packed` / `is_array`, defaulting to the bitmap family. -/
def pixelOrderOfCode (code : Nat) : PixelOrder :=
  let bits := (code >>> 20) &&& 0x0F
  if isPackedOfCode code then .Packed (packedOrderOfNibble bits)
  else if isArrayOfCode code then .Array (arrayOrderOfNibble bits)
  else .Bitmap (bitmapOrderOfNibble bits)

/-- The `match` body of `PixelFormatEnum::pixel_layout` over the layout
nibble (`SDL_PACKEDLAYOUT_*` are 1..8 in declaration order). -/
def pixelLayoutOfNibble (n : Nat) : PixelLayout :=
  match n with
  | 1 => ._332
  | 2 => ._4444
  | 3 => ._1555
  | 4 => ._5551
  | 5 => ._565
  | 6 => ._8888
  | 7 => ._2101010
  | 8 => ._1010102
  | _ => .None

/-- `PixelFormatEnum::pixel_layout` as a function of the raw code:
decodes `(self as u32 >> 16) & 0x0F`. -/
def pixelLayoutOfCode (code : Nat) : PixelLayout :=
  pixelLayoutOfNibble ((code >>> 16) &&& 0x0F)

/-- `PixelFormatEnum::bits_per_pixel` as a function of the raw code:
`(self as u32 >> 8) & 0xFF`. -/
def bitsPerPixelOfCode (code : Nat) : Nat :=
  (code >>> 8) &&& 0xFF

/-- `PixelFormatEnum::pixel_type`. -/
def PixelFormatEnum.pixel_type (pf : PixelFormatEnum) : PixelType :=
  pixelTypeOfCode pf.toCode

/-- `PixelFormatEnum::pixel_order`. -/
def PixelFormatEnum.pixel_order (pf : PixelFormatEnum) : PixelOrder :=
  pixelOrderOfCode pf.toCode

/-- `PixelFormatEnum::pixel_layout`. -/
def PixelFormatEnum.pixel_layout (pf : PixelFormatEnum) : PixelLayout :=
  pixelLayoutOfCode pf.toCode

/-- `PixelFormatEnum::bits_per_pixel`. -/
def PixelFormatEnum.bits_per_pixel (pf : PixelFormatEnum) : Nat :=
  bitsPerPixelOfCode pf.toCode

/-- `PixelFormatEnum::is_fourcc`. -/
def PixelFormatEnum.is_fourcc (pf : PixelFormatEnum) : Bool :=
  isFourccOfCode pf.toCode

/-- `PixelFormatEnum::is_indexed`. -/
def PixelFormatEnum.is_indexed (pf : PixelFormatEnum) : Bool :=
  isIndexedOfCode pf.toCode

/-- `PixelFormatEnum::is_packed`. -/
def PixelFormatEnum.is_packed (pf : PixelFormatEnum) : Bool :=
  isPackedOfCode pf.toCode

/-- `PixelFormatEnum::is_array`. -/
def PixelFormatEnum.is_array (pf : PixelFormatEnum) : Bool :=
  isArrayOfCode pf.toCode

/-- `PixelFormatEnum::is_alpha`: matches on `self.pixel_order()`. -/
def PixelFormatEnum.is_alpha (pf : PixelFormatEnum) : Bool :=
  match pf.pixel_order with
  | .Packed .ARGB | .Packed .RGBA | .Packed .ABGR | .Packed .BGRA
  | .Array .ARGB | .Array .RGBA | .Array .ABGR | .Array .BGRA => true
  | _ => false

/-- `PixelFormatEnum::bytes_per_pixel`: fourcc formats match on `self`
(YUY2/UYVY/YVYU give 2, the rest 1), non-fourcc formats read
`self as u32 & 0xFF`. -/
def PixelFormatEnum.bytes_per_pixel (pf : PixelFormatEnum) : Nat :=
  if pf.is_fourcc then
    match pf with
    | .YUY2 | .UYVY | .YVYU => 2
    | _ => 1
  else
    pf.toCode &&& 0xFF

/-- `From<fermium Type> for PixelFormatEnum` (src/src/lib.rs, lines 827-871):
each recognized code maps to its variant, anything else to `Unknown`. -/
def PixelFormatEnum.fromCode (pf : Nat) : PixelFormatEnum :=
  match pf with
  | 0x11100100 => .Index1lsb
  | 0x11200100 => .Index1msb
  | 0x12100400 => .Index4lsb
  | 0x12200400 => .Index4msb
  | 0x13000801 => .Index8
  | 0x14110801 => .RGB332
  | 0x15120C02 => .RGB444
  | 0x15130F02 => .RGB555
  | 0x15530F02 => .BGR555
  | 0x15321002 => .ARGB4444
  | 0x15421002 => .RGBA4444
  | 0x15721002 => .ABGR4444
  | 0x15821002 => .BGRA4444
  | 0x15331002 => .ARGB1555
  | 0x15441002 => .RGBA5551
  | 0x15731002 => .ABGR1555
  | 0x15841002 => .BGRA5551
  | 0x15151002 => .RGB565
  | 0x15551002 => .BGR565
  | 0x17101803 => .RGB24
  | 0x17401803 => .BGR24
  | 0x16161804 => .RGB888
  | 0x16261804 => .RGBX8888
  | 0x16561804 => .BGR888
  | 0x16661804 => .BGRX8888
  | 0x16362004 => .ARGB8888
  | 0x16462004 => .RGBA8888
  | 0x16762004 => .ABGR8888
  | 0x16862004 => .BGRA8888
  | 0x16372004 => .ARGB2101010
  | 0x32315659 => .YV12
  | 0x56555949 => .IYUV
  | 0x32595559 => .YUY2
  | 0x59565955 => .UYVY
  | 0x55595659 => .YVYU
  | 0x3231564E => .NV12
  | 0x3132564E => .NV21
  | 0x2053454F => .ExternalOES
  | _ => .Unknown

/-! ## Event decoding

The event module (`mod event` of src/src/lib.rs) is declared in the crate
root but its file is not under src/; the decoder is modelled from the spec.
-/

/-- Modelled from the spec: the fixed-size raw tagged-union event record the
native layer fills in (the `SDL_Event` union; the crate's `event` module is
not under src/).  `eventType` is the leading discriminant; the remaining
fields stand for the payload words of the union, read only under the
matching discriminant. -/
structure RawEvent where
  eventType : Nat
  f1 : Nat
  f2 : Nat
  f3 : Nat
  f4 : Nat
  f5 : Nat
  deriving DecidableEq, Repr

/-- The all-zero `SDL_Event::default()` buffer. -/
def RawEvent.default : RawEvent := ⟨0, 0, 0, 0, 0, 0⟩

/-- Modelled from the spec: the decoded `Event` sum type (the crate's
`event` module is not under src/): Quit, window state-change, keyboard,
mouse motion/button/wheel, controller axis/button/device-added/removed,
text input, and a catch-all `Unknown` carrying the raw discriminant. -/
inductive Event
  | Quit
  | Window (windowId : Nat) (eventId : Nat)
  | Keyboard (down : Bool) (scancode : Nat) (keycode : Nat) (modifiers : Nat) (isRepeat : Bool)
  | MouseMotion (x : Nat) (y : Nat)
  | MouseButton (down : Bool) (button : Nat)
  | MouseWheel (dx : Nat) (dy : Nat)
  | ControllerAxis (axis : Nat) (value : Nat)
  | ControllerButton (down : Bool) (button : Nat)
  | ControllerDeviceAdded (joystickId : Nat)
  | ControllerDeviceRemoved (joystickId : Nat)
  | TextInput (windowId : Nat) (text : Nat)
  | Unknown (code : Nat)
  deriving DecidableEq, Repr

/-- Native `SDL_EventType` discriminant: quit. -/
def SDL_QUIT : Nat := 0x100
/-- Native `SDL_EventType` discriminant: window state change. -/
def SDL_WINDOWEVENT : Nat := 0x200
/-- Native `SDL_EventType` discriminant: key pressed. -/
def SDL_KEYDOWN : Nat := 0x300
/-- Native `SDL_EventType` discriminant: key released. -/
def SDL_KEYUP : Nat := 0x301
/-- Native `SDL_EventType` discriminant: text input. -/
def SDL_TEXTINPUT : Nat := 0x303
/-- Native `SDL_EventType` discriminant: mouse motion. -/
def SDL_MOUSEMOTION : Nat := 0x400
/-- Native `SDL_EventType` discriminant: mouse button pressed. -/
def SDL_MOUSEBUTTONDOWN : Nat := 0x401
/-- Native `SDL_EventType` discriminant: mouse button released. -/
def SDL_MOUSEBUTTONUP : Nat := 0x402
/-- Native `SDL_EventType` discriminant: mouse wheel. -/
def SDL_MOUSEWHEEL : Nat := 0x403
/-- Native `SDL_EventType` discriminant: controller axis motion. -/
def SDL_CONTROLLERAXISMOTION : Nat := 0x650
/-- Native `SDL_EventType` discriminant: controller button pressed. -/
def SDL_CONTROLLERBUTTONDOWN : Nat := 0x651
/-- Native `SDL_EventType` discriminant: controller button released. -/
def SDL_CONTROLLERBUTTONUP : Nat := 0x652
/-- Native `SDL_EventType` discriminant: controller device added. -/
def SDL_CONTROLLERDEVICEADDED : Nat := 0x653
/-- Native `SDL_EventType` discriminant: controller device removed. -/
def SDL_CONTROLLERDEVICEREMOVED : Nat := 0x654

/-- The set of discriminants the decoder models with a dedicated variant. -/
def modeledEventTypes : List Nat :=
  [SDL_QUIT, SDL_WINDOWEVENT, SDL_KEYDOWN, SDL_KEYUP, SDL_TEXTINPUT,
   SDL_MOUSEMOTION, SDL_MOUSEBUTTONDOWN, SDL_MOUSEBUTTONUP, SDL_MOUSEWHEEL,
   SDL_CONTROLLERAXISMOTION, SDL_CONTROLLERBUTTONDOWN, SDL_CONTROLLERBUTTONUP,
   SDL_CONTROLLERDEVICEADDED, SDL_CONTROLLERDEVICEREMOVED]

/-- Modelled from the spec: `From<SDL_Event> for Event` (the crate's `event`
module is not under src/).  Reads the leading discriminant, dispatches to
the payload-extraction rule of the matching variant, and decodes any
unrecognized discriminant to `Unknown` carrying the raw discriminant; it is
a total function, so decoding never errors and never drops the record. -/
def Event.fromRaw (raw : RawEvent) : Event :=
  if raw.eventType = SDL_QUIT then .Quit
  else if raw.eventType = SDL_WINDOWEVENT then .Window raw.f1 raw.f2
  else if raw.eventType = SDL_KEYDOWN then
    .Keyboard true raw.f1 raw.f2 raw.f3 (raw.f4 ≠ 0)
  else if raw.eventType = SDL_KEYUP then
    .Keyboard false raw.f1 raw.f2 raw.f3 (raw.f4 ≠ 0)
  else if raw.eventType = SDL_TEXTINPUT then .TextInput raw.f1 raw.f2
  else if raw.eventType = SDL_MOUSEMOTION then .MouseMotion raw.f1 raw.f2
  else if raw.eventType = SDL_MOUSEBUTTONDOWN then .MouseButton true raw.f1
  else if raw.eventType = SDL_MOUSEBUTTONUP then .MouseButton false raw.f1
  else if raw.eventType = SDL_MOUSEWHEEL then .MouseWheel raw.f1 raw.f2
  else if raw.eventType = SDL_CONTROLLERAXISMOTION then .ControllerAxis raw.f1 raw.f2
  else if raw.eventType = SDL_CONTROLLERBUTTONDOWN then .ControllerButton true raw.f1
  else if raw.eventType = SDL_CONTROLLERBUTTONUP then .ControllerButton false raw.f1
  else if raw.eventType = SDL_CONTROLLERDEVICEADDED then .ControllerDeviceAdded raw.f1
  else if raw.eventType = SDL_CONTROLLERDEVICEREMOVED then .ControllerDeviceRemoved raw.f1
  else .Unknown raw.eventType

/-! ## Capability token, resources, and their destructors

Native handles are modelled as `Nat`.  Each resource structure keeps the
field names of the source (`ptr`, `dev`, ...).  A `Drop` impl is embedded
as a function returning the list of native calls it performs.
-/

/-- `SDLToken` (src/src/lib.rs, lines 147-150): zero-sized proof of
initialization (its only field is `PhantomData`). -/
structure SDLToken
  deriving DecidableEq, Repr

/-- `Window` (src/src/lib.rs, lines 413-419): owns one native window
handle. -/
structure Window where
  ptr : Nat
  deriving DecidableEq, Repr

/-- `Renderer` (src/src/lib.rs, lines 608-616): owns one native rendering
context handle. -/
structure Renderer where
  ptr : Nat
  deriving DecidableEq, Repr

/-- `Texture` (src/src/lib.rs, lines 683-692): owns one native GPU texture
handle. -/
structure Texture where
  ptr : Nat
  deriving DecidableEq, Repr

/-- `CDyLib` (src/src/lib.rs, lines 1103-1117): owns one native loaded
library handle. -/
structure CDyLib where
  ptr : Nat
  deriving DecidableEq, Repr

/-- Modelled from the spec: `Surface` (the crate's `surface` module is not
under src/) owns one native CPU-side image handle. -/
structure Surface where
  ptr : Nat
  deriving DecidableEq, Repr

/-- Modelled from the spec: `Controller` (the crate's `controller` module is
not under src/) owns one native game-controller handle. -/
structure Controller where
  ptr : Nat
  deriving DecidableEq, Repr

/-- `AudioQueue`: owns a native audio device id and carries the negotiated
spec fields; the field list is the one filled in by
`open_default_audio_queue` (src/src/lib.rs, lines 327-337). -/
structure AudioQueue where
  dev : Nat
  frequency : Int
  format : Nat
  channels : Nat
  silence : Nat
  sample_count : Nat
  buffer_size : Nat
  deriving DecidableEq, Repr

/-- A call into the native layer that releases a resource. -/
inductive NativeCall
  | sdlQuit
  | destroyWindow (h : Nat)
  | destroyRenderer (h : Nat)
  | destroyTexture (h : Nat)
  | freeSurface (h : Nat)
  | gameControllerClose (h : Nat)
  | closeAudioDevice (dev : Nat)
  | unloadObject (h : Nat)
  deriving DecidableEq, Repr

/-- `Drop for SDLToken` (src/src/lib.rs, lines 151-155): calls `SDL_Quit`. -/
def SDLToken.drop (_ : SDLToken) : List NativeCall := [.sdlQuit]

/-- `Drop for Window` (src/src/lib.rs, lines 420-424): calls
`SDL_DestroyWindow(self.ptr)`. -/
def Window.drop (w : Window) : List NativeCall := [.destroyWindow w.ptr]

/-- `Drop for Renderer` (src/src/lib.rs, lines 617-621): calls
`SDL_DestroyRenderer(self.ptr)`. -/
def Renderer.drop (r : Renderer) : List NativeCall := [.destroyRenderer r.ptr]

/-- `Drop for Texture` (src/src/lib.rs, lines 693-697): calls
`SDL_DestroyTexture(self.ptr)`. -/
def Texture.drop (t : Texture) : List NativeCall := [.destroyTexture t.ptr]

/-- `Drop for CDyLib` (src/src/lib.rs, lines 1118-1122): calls
`SDL_UnloadObject(self.ptr)`. -/
def CDyLib.drop (l : CDyLib) : List NativeCall := [.unloadObject l.ptr]

/-- Modelled from the spec: `Drop for Surface` (surface module not under
src/) releases exactly its own native handle via `SDL_FreeSurface`. -/
def Surface.drop (s : Surface) : List NativeCall := [.freeSurface s.ptr]

/-- Modelled from the spec: `Drop for Controller` (controller module not
under src/) releases exactly its own native handle via
`SDL_GameControllerClose`. -/
def Controller.drop (c : Controller) : List NativeCall := [.gameControllerClose c.ptr]

/-- Modelled from the spec: `Drop for AudioQueue` (audio module not under
src/) releases exactly its own native device id via
`SDL_CloseAudioDevice`. -/
def AudioQueue.drop (q : AudioQueue) : List NativeCall := [.closeAudioDevice q.dev]

/-- Classification of resource kinds, to state which resource a native
release call tears down. -/
inductive ResKind
  | sdlSubsystem
  | window
  | renderer
  | texture
  | surface
  | controller
  | audioQueue
  | cdylib
  deriving DecidableEq, Repr

/-- The resource kind and handle a native call releases. -/
def NativeCall.releases : NativeCall → ResKind × Nat
  | .sdlQuit => (.sdlSubsystem, 0)
  | .destroyWindow h => (.window, h)
  | .destroyRenderer h => (.renderer, h)
  | .destroyTexture h => (.texture, h)
  | .freeSurface h => (.surface, h)
  | .gameControllerClose h => (.controller, h)
  | .closeAudioDevice d => (.audioQueue, d)
  | .unloadObject h => (.cdylib, h)

/-! ## Initialization -/

/-- The observable native state `init` runs against: the return code the
`SDL_Init(SDL_INIT_EVERYTHING)` call would produce, the current native
last-error string, and whether an `SDLToken` is currently alive (the source
tracks no such flag; it is carried here so the double-initialization claim
can be stated). -/
structure SDLState where
  sdlInitResult : Int
  lastError : String
  tokenAlive : Bool

/-- `init` (src/src/lib.rs, lines 132-140): returns a token when
`SDL_Init(SDL_INIT_EVERYTHING) == 0` and the native error string otherwise.
The function performs no check of prior initialization; double
initialization is excluded only by the `unsafe` contract in its
documentation. -/
def init (s : SDLState) : Except String SDLToken :=
  if s.sdlInitResult = 0 then .ok ⟨⟩ else .error s.lastError

/-! ## Event polling -/

/-- Modelled from the native contract the source documents: `SDL_PollEvent`
pops the head of the process-wide queue into the caller's buffer and
returns 1 when an event was pending, 0 when the queue is empty. -/
def SDL_PollEvent (q : List RawEvent) (buf : RawEvent) : Nat × RawEvent × List RawEvent :=
  match q with
  | [] => (0, buf, [])
  | e :: rest => (1, e, rest)

/-- `SDLToken::poll_event` (src/src/lib.rs, lines 230-239): calls
`SDL_PollEvent` on a default buffer and returns `Some(Event::from(event))`
exactly when the native call returned 1, `None` otherwise.  The remaining
queue is returned to make the drained amount observable. -/
def SDLToken.poll_event (_ : SDLToken) (q : List RawEvent) : Option Event × List RawEvent :=
  let r := SDL_PollEvent q RawEvent.default
  if r.1 = 1 then (some (Event.fromRaw r.2.1), r.2.2) else (none, r.2.2)

/-! ## Display modes -/

/-- The native `SDL_DisplayMode` record: format code, width, height,
refresh rate, and the opaque `driverdata` pointer (modelled as `Nat`,
0 = null). -/
structure SDL_DisplayMode where
  format : Nat
  w : Int
  h : Int
  refresh_rate : Int
  driverdata : Nat
  deriving DecidableEq, Repr

/-- `DisplayMode` (src/src/lib.rs, lines 557-569). -/
structure DisplayMode where
  format : PixelFormatEnum
  width : Int
  height : Int
  refresh_rate : Int
  driver_data : Nat
  deriving DecidableEq, Repr

/-- `From<SDL_DisplayMode> for DisplayMode` (src/src/lib.rs, lines
570-580): the format code goes through `PixelFormatEnum::from`, the other
fields are copied. -/
def DisplayMode.fromSDL (sdl_mode : SDL_DisplayMode) : DisplayMode :=
  ⟨PixelFormatEnum.fromCode sdl_mode.format, sdl_mode.w, sdl_mode.h,
   sdl_mode.refresh_rate, sdl_mode.driverdata⟩

/-- `From<DisplayMode> for SDL_DisplayMode` (src/src/lib.rs, lines
581-591): the format goes through `as u32`, the other fields are copied. -/
def DisplayMode.toSDL (mode : DisplayMode) : SDL_DisplayMode :=
  ⟨mode.format.toCode, mode.width, mode.height, mode.refresh_rate,
   mode.driver_data⟩

/-- `DisplayMode::new` (src/src/lib.rs, lines 592-606): builds a mode with
the given fields and a null `driver_data`. -/
def DisplayMode.new (format : PixelFormatEnum) (width height refresh_rate : Int) : DisplayMode :=
  ⟨format, width, height, refresh_rate, 0⟩

/-! ## Audio queue opening -/

/-- The native `SDL_AudioSpec` record (desired or obtained). -/
structure SDL_AudioSpec where
  freq : Int
  format : Nat
  channels : Nat
  silence : Nat
  samples : Nat
  size : Nat
  deriving DecidableEq, Repr

/-- `DefaultAudioQueueRequest`: the request fields read by
`open_default_audio_queue` (src/src/lib.rs, lines 299-318; the struct's own
declaration is in the crate's `audio` module, not under src/). -/
structure DefaultAudioQueueRequest where
  frequency : Int
  format : Nat
  channels : Nat
  samples : Nat
  allow_frequency_change : Bool
  allow_format_change : Bool
  allow_channels_change : Bool
  deriving DecidableEq, Repr

/-- Native constant `SDL_AUDIO_ALLOW_FREQUENCY_CHANGE`. -/
def SDL_AUDIO_ALLOW_FREQUENCY_CHANGE : Nat := 0x1
/-- Native constant `SDL_AUDIO_ALLOW_FORMAT_CHANGE`. -/
def SDL_AUDIO_ALLOW_FORMAT_CHANGE : Nat := 0x2
/-- Native constant `SDL_AUDIO_ALLOW_CHANNELS_CHANGE`. -/
def SDL_AUDIO_ALLOW_CHANNELS_CHANGE : Nat := 0x4

/-- The `changes` accumulation of `open_default_audio_queue`
(src/src/lib.rs, lines 309-318): starts at 0 and ors in each permission bit
when the matching request flag is set. -/
def changesMask (request : DefaultAudioQueueRequest) : Nat :=
  let changes := 0
  let changes :=
    if request.allow_frequency_change then changes ||| SDL_AUDIO_ALLOW_FREQUENCY_CHANGE
    else changes
  let changes :=
    if request.allow_format_change then changes ||| SDL_AUDIO_ALLOW_FORMAT_CHANGE
    else changes
  let changes :=
    if request.allow_channels_change then changes ||| SDL_AUDIO_ALLOW_CHANNELS_CHANGE
    else changes
  changes

/-- The `desired_spec` built from the request (src/src/lib.rs, lines
303-307): frequency, format, channels, samples from the request, the other
fields left at their defaults. -/
def desiredSpecOf (request : DefaultAudioQueueRequest) : SDL_AudioSpec :=
  ⟨request.frequency, request.format, request.channels, 0, request.samples, 0⟩

/-- `SDLToken::open_default_audio_queue` (src/src/lib.rs, lines 299-338).
The native `SDL_OpenAudioDevice` call is passed in as `native`, a function
from the desired spec and the change-permission mask to the returned device
id and the obtained spec; `lastError` is the native error string in effect
on failure.  On success every stored field is copied from the obtained
spec. -/
def open_default_audio_queue (request : DefaultAudioQueueRequest)
    (native : SDL_AudioSpec → Nat → Nat × SDL_AudioSpec)
    (lastError : String) : Except String AudioQueue :=
  let desired_spec := desiredSpecOf request
  let changes := changesMask request
  let res := native desired_spec changes
  let audio_device_id := res.1
  let obtained_spec := res.2
  if audio_device_id = 0 then .error lastError
  else
    .ok ⟨audio_device_id, obtained_spec.freq, obtained_spec.format,
         obtained_spec.channels, obtained_spec.silence, obtained_spec.samples,
         obtained_spec.size⟩

/-! ## Theorems -/

/-- Every 4-bit mask result is below 16. -/
theorem nibble_lt_16 (x : Nat) : x &&& 0x0F < 16 :=
  Nat.lt_succ_of_le Nat.and_le_right

/-- Helper: the type-nibble decoder sends every unrecognized nibble to
`Unknown`. -/
theorem pixelTypeOfNibble_unrecognized :
    ∀ n < 16, n ∉ ([1, 2, 3, 4, 5, 6, 7, 8, 9, 10, 11] : List Nat) →
      pixelTypeOfNibble n = .Unknown := by decide

/-- Helper: the layout-nibble decoder sends every unrecognized nibble to
`None`. -/
theorem pixelLayoutOfNibble_unrecognized :
    ∀ n < 16, n ∉ ([1, 2, 3, 4, 5, 6, 7, 8] : List Nat) →
      pixelLayoutOfNibble n = .None := by decide

/-- Helper: the packed-order decoder sends every unrecognized nibble to
`None`. -/
theorem packedOrderOfNibble_unrecognized :
    ∀ n < 16, n ∉ ([1, 2, 3, 4, 5, 6, 7, 8] : List Nat) →
      packedOrderOfNibble n = .None := by decide

/-- Helper: the array-order decoder sends every unrecognized nibble to
`None`. -/
theorem arrayOrderOfNibble_unrecognized :
    ∀ n < 16, n ∉ ([1, 2, 3, 4, 5, 6] : List Nat) →
      arrayOrderOfNibble n = .None := by decide

/-- Helper: the bitmap-order decoder sends every unrecognized nibble to
`None`. -/
theorem bitmapOrderOfNibble_unrecognized :
    ∀ n < 16, n ∉ ([1, 2] : List Nat) →
      bitmapOrderOfNibble n = .None := by decide

/-- C5: the pixel-format decoders `pixel_type`, `pixel_order` and
`pixel_layout` are total: for every format code, a type nibble outside the
recognized set decodes to `PixelType.Unknown`, a layout nibble outside the
recognized set decodes to `PixelLayout.None`, and an order nibble outside
the set recognized by the format's order family decodes to that family's
`None` sub-variant; being Lean functions into the result enums, the
decoders can neither panic nor error. -/
theorem C5_pixel_decoders_total :
    (∀ code : Nat, ((code >>> 24) &&& 0x0F) ∉ ([1, 2, 3, 4, 5, 6, 7, 8, 9, 10, 11] : List Nat) →
      pixelTypeOfCode code = .Unknown) ∧
    (∀ code : Nat, ((code >>> 16) &&& 0x0F) ∉ ([1, 2, 3, 4, 5, 6, 7, 8] : List Nat) →
      pixelLayoutOfCode code = .None) ∧
    (∀ code : Nat, isPackedOfCode code = true →
      ((code >>> 20) &&& 0x0F) ∉ ([1, 2, 3, 4, 5, 6, 7, 8] : List Nat) →
      pixelOrderOfCode code = .Packed .None) ∧
    (∀ code : Nat, isArrayOfCode code = true →
      ((code >>> 20) &&& 0x0F) ∉ ([1, 2, 3, 4, 5, 6] : List Nat) →
      pixelOrderOfCode code = .Array .None) ∧
    (∀ code : Nat, isPackedOfCode code = false → isArrayOfCode code = false →
      ((code >>> 20) &&& 0x0F) ∉ ([1, 2] : List Nat) →
      pixelOrderOfCode code = .Bitmap .None) := by
  refine ⟨?_, ?_, ?_, ?_, ?_⟩
  · intro code h
    exact pixelTypeOfNibble_unrecognized _ (nibble_lt_16 _) h
  · intro code h
    exact pixelLayoutOfNibble_unrecognized _ (nibble_lt_16 _) h
  · intro code hp h
    unfold pixelOrderOfCode
    simp only [hp, if_true]
    exact congrArg PixelOrder.Packed
      (packedOrderOfNibble_unrecognized _ (nibble_lt_16 _) h)
  · intro code ha h
    unfold pixelOrderOfCode
    have hp : isPackedOfCode code = false := by
      cases h1 : isPackedOfCode code
      · rfl
      · exfalso
        unfold isPackedOfCode at h1
        unfold isArrayOfCode at ha
        rcases Bool.and_eq_true _ _ |>.mp h1 with ⟨-, ht⟩
        rcases Bool.and_eq_true _ _ |>.mp ha with ⟨-, ha2⟩
        cases hpt : pixelTypeOfCode code <;> rw [hpt] at ht ha2 <;> simp_all
    simp only [hp, ha, Bool.false_eq_true, if_false, if_true]
    exact congrArg PixelOrder.Array
      (arrayOrderOfNibble_unrecognized _ (nibble_lt_16 _) h)
  · intro code hp ha h
    unfold pixelOrderOfCode
    simp only [hp, ha, Bool.false_eq_true, if_false]
    exact congrArg PixelOrder.Bitmap
      (bitmapOrderOfNibble_unrecognized _ (nibble_lt_16 _) h)

/-- C5 witness: concrete unrecognized nibbles decode to the explicit
unknown sub-variants.  Code `0xFFFFFFFF` has type, layout and order nibbles
15 and is fourcc, so its order is decoded by the bitmap family;
`0x15F21002` is a packed-16 format with order nibble 15; `0x17F01803` is an
array-u8 format with order nibble 15. -/
theorem C5_pixel_decoders_total_witness :
    pixelTypeOfCode 0xFFFFFFFF = .Unknown ∧
    pixelLayoutOfCode 0xFFFFFFFF = .None ∧
    pixelOrderOfCode 0xFFFFFFFF = .Bitmap .None ∧
    pixelOrderOfCode 0x15F21002 = .Packed .None ∧
    pixelOrderOfCode 0x17F01803 = .Array .None :=
  ⟨C5_pixel_decoders_total.1 0xFFFFFFFF (by decide),
   C5_pixel_decoders_total.2.1 0xFFFFFFFF (by decide),
   C5_pixel_decoders_total.2.2.2.2 0xFFFFFFFF (by decide) (by decide) (by decide),
   C5_pixel_decoders_total.2.2.1 0x15F21002 (by decide) (by decide),
   C5_pixel_decoders_total.2.2.2.1 0x17F01803 (by decide) (by decide)⟩

/-- C6: `is_fourcc` holds exactly when the code is positive and its top
nibble differs from 1; `is_indexed`, `is_packed` and `is_array` are
pairwise mutually exclusive for every code and all false on fourcc codes;
and the YV12 code is fourcc, not packed, not array. -/
theorem C6_fourcc_exclusivity :
    (∀ code : Nat, isFourccOfCode code = true ↔ (0 < code ∧ ((code >>> 28) &&& 0x0F) ≠ 1)) ∧
    (∀ code : Nat,
      ¬(isIndexedOfCode code = true ∧ isPackedOfCode code = true) ∧
      ¬(isIndexedOfCode code = true ∧ isArrayOfCode code = true) ∧
      ¬(isPackedOfCode code = true ∧ isArrayOfCode code = true)) ∧
    (∀ code : Nat, isFourccOfCode code = true →
      isIndexedOfCode code = false ∧ isPackedOfCode code = false ∧
      isArrayOfCode code = false) ∧
    (PixelFormatEnum.YV12.is_fourcc = true ∧
     PixelFormatEnum.YV12.is_packed = false ∧
     PixelFormatEnum.YV12.is_array = false) := by
  refine ⟨?_, ?_, ?_, by decide⟩
  · intro code
    simp [isFourccOfCode]
  · intro code
    cases hpt : pixelTypeOfCode code <;>
      simp [isIndexedOfCode, isPackedOfCode, isArrayOfCode, hpt]
  · intro code h
    refine ⟨?_, ?_, ?_⟩ <;>
      simp [isIndexedOfCode, isPackedOfCode, isArrayOfCode, h]

/-- C6 witness: the YV12 code is fourcc, and the indexed/packed/array
predicates are all false on it. -/
theorem C6_fourcc_exclusivity_witness :
    isIndexedOfCode 0x32315659 = false ∧ isPackedOfCode 0x32315659 = false ∧
      isArrayOfCode 0x32315659 = false :=
  C6_fourcc_exclusivity.2.2.1 0x32315659 (by decide)

/-- C7: decoding the RGBA8888 code yields 32 bits per pixel, 4 bytes per
pixel, an alpha channel, and a packed format. -/
theorem C7_rgba8888_decode :
    PixelFormatEnum.RGBA8888.bits_per_pixel = 32 ∧
    PixelFormatEnum.RGBA8888.bytes_per_pixel = 4 ∧
    PixelFormatEnum.RGBA8888.is_alpha = true ∧
    PixelFormatEnum.RGBA8888.is_packed = true := by decide

/-- C10: every non-fourcc named format with fewer than 8 bits per pixel has
`bytes_per_pixel` 0, and every fourcc named format has `bytes_per_pixel` 1
or 2, with 2 exactly for YUY2, UYVY and YVYU. -/
theorem C10_bytes_per_pixel :
    (∀ pf : PixelFormatEnum, pf.is_fourcc = false → pf.bits_per_pixel < 8 →
      pf.bytes_per_pixel = 0) ∧
    (∀ pf : PixelFormatEnum, pf.is_fourcc = true →
      (pf.bytes_per_pixel = 1 ∨ pf.bytes_per_pixel = 2) ∧
      (pf.bytes_per_pixel = 2 ↔ (pf = .YUY2 ∨ pf = .UYVY ∨ pf = .YVYU))) := by
  constructor
  · intro pf
    cases pf <;> decide
  · intro pf
    cases pf <;> decide

/-- C10 witness: the 1-bit indexed format has 0 bytes per pixel, and the
fourcc formats YUY2 and YV12 have 2 and 1 bytes per pixel respectively. -/
theorem C10_bytes_per_pixel_witness :
    PixelFormatEnum.Index1lsb.bytes_per_pixel = 0 ∧
    PixelFormatEnum.YUY2.bytes_per_pixel = 2 ∧
    (PixelFormatEnum.YV12.bytes_per_pixel = 1 ∨
     PixelFormatEnum.YV12.bytes_per_pixel = 2) :=
  ⟨C10_bytes_per_pixel.1 .Index1lsb (by decide) (by decide),
   (C10_bytes_per_pixel.2 .YUY2 (by decide)).2.mpr (Or.inl rfl),
   (C10_bytes_per_pixel.2 .YV12 (by decide)).1⟩

/-- C1 counterexample: `init` performs no already-initialized check.  In
the state where a token is alive and the native `SDL_Init` call reports
success (return code 0, as the native layer does on a repeated
initialization), `init` returns a second token instead of any error, so
the claim that a second initialization attempt while a token is alive
fails with an "already initialized" error is false. -/
theorem C1_init_counterexample :
    ¬(∀ s : SDLState, s.tokenAlive = true → ∃ msg, init s = Except.error msg) := by
  intro hclaim
  obtain ⟨msg, hmsg⟩ := hclaim ⟨0, "", true⟩ rfl
  simp [init] at hmsg

/-- C1 amended: `init` succeeds with a token exactly when the native
`SDL_Init` call returns 0 and otherwise fails with the native error
string; the source performs no wrapper-level check of prior
initialization, leaving double initialization excluded only by the
function's documented `unsafe` contract. -/
theorem C1_init_amended :
    ∀ s : SDLState,
      (s.sdlInitResult = 0 → init s = .ok ⟨⟩) ∧
      (s.sdlInitResult ≠ 0 → init s = .error s.lastError) := by
  intro s
  constructor <;> intro h <;> simp [init, h]

/-- C1 witness: on a zero native return code `init` yields the token; on a
nonzero return code it yields the error string. -/
theorem C1_init_amended_witness :
    init ⟨0, "", false⟩ = .ok ⟨⟩ ∧ init ⟨-1, "boom", false⟩ = .error "boom" :=
  ⟨(C1_init_amended ⟨0, "", false⟩).1 rfl,
   (C1_init_amended ⟨-1, "boom", false⟩).2 (by decide)⟩

/-- C2: each resource's destructor performs exactly one native release
call, and that call releases the resource's own kind and own handle, so no
other resource's handle is touched. -/
theorem C2_drop_releases_own_handle :
    (∀ t : SDLToken, t.drop.map NativeCall.releases = [(.sdlSubsystem, 0)]) ∧
    (∀ w : Window, w.drop.map NativeCall.releases = [(.window, w.ptr)]) ∧
    (∀ r : Renderer, r.drop.map NativeCall.releases = [(.renderer, r.ptr)]) ∧
    (∀ t : Texture, t.drop.map NativeCall.releases = [(.texture, t.ptr)]) ∧
    (∀ s : Surface, s.drop.map NativeCall.releases = [(.surface, s.ptr)]) ∧
    (∀ c : Controller, c.drop.map NativeCall.releases = [(.controller, c.ptr)]) ∧
    (∀ q : AudioQueue, q.drop.map NativeCall.releases = [(.audioQueue, q.dev)]) ∧
    (∀ l : CDyLib, l.drop.map NativeCall.releases = [(.cdylib, l.ptr)]) :=
  ⟨fun _ => rfl, fun _ => rfl, fun _ => rfl, fun _ => rfl,
   fun _ => rfl, fun _ => rfl, fun _ => rfl, fun _ => rfl⟩

/-- C3: decoding a raw record whose discriminant is outside the modeled
set yields the `Unknown` variant carrying the raw discriminant; the
decoder is a total function into `Event`, so it never errors and never
drops the record. -/
theorem C3_unknown_discriminant :
    ∀ raw : RawEvent, raw.eventType ∉ modeledEventTypes →
      Event.fromRaw raw = .Unknown raw.eventType := by
  intro raw h
  simp only [modeledEventTypes, List.mem_cons, List.not_mem_nil, or_false,
    not_or] at h
  obtain ⟨h1, h2, h3, h4, h5, h6, h7, h8, h9, h10, h11, h12, h13, h14⟩ := h
  simp [Event.fromRaw, h1, h2, h3, h4, h5, h6, h7, h8, h9, h10, h11, h12, h13, h14]

/-- C3 witness: discriminant `0x777` is not modeled and decodes to
`Unknown 0x777`. -/
theorem C3_unknown_discriminant_witness :
    Event.fromRaw ⟨0x777, 1, 2, 3, 4, 5⟩ = .Unknown 0x777 :=
  C3_unknown_discriminant ⟨0x777, 1, 2, 3, 4, 5⟩ (by decide)

/-- C4: `poll_event` returns `None` exactly when the native poll reports
the queue empty, drains nothing from an empty queue, and on a non-empty
queue drains exactly the head record and returns its decoded event. -/
theorem C4_poll_event :
    ∀ (t : SDLToken) (q : List RawEvent),
      ((t.poll_event q).1 = none ↔ q = []) ∧
      (q = [] → t.poll_event q = (none, [])) ∧
      (∀ r rest, q = r :: rest →
        t.poll_event q = (some (Event.fromRaw r), rest)) := by
  intro t q
  cases q <;>
    simp [SDLToken.poll_event, SDL_PollEvent]

/-- C4 witness: polling a one-record queue holding a quit record drains it
and returns the decoded Quit event; polling the empty queue returns
`None`. -/
theorem C4_poll_event_witness :
    SDLToken.poll_event ⟨⟩ [⟨0x100, 0, 0, 0, 0, 0⟩] = (some Event.Quit, []) ∧
    SDLToken.poll_event ⟨⟩ [] = (none, []) :=
  ⟨((C4_poll_event ⟨⟩ [⟨0x100, 0, 0, 0, 0, 0⟩]).2.2 ⟨0x100, 0, 0, 0, 0, 0⟩ []
      rfl).trans (by decide),
   (C4_poll_event ⟨⟩ []).2.1 rfl⟩

/-- C8: the change-permission mask passed to the native open call contains
the frequency / format / channels bits exactly when the corresponding
request flag is set, and on success every stored `AudioQueue` field is
copied from the obtained spec the native call returned. -/
theorem C8_audio_queue_negotiation :
    (∀ request : DefaultAudioQueueRequest,
      ((changesMask request &&& SDL_AUDIO_ALLOW_FREQUENCY_CHANGE ≠ 0) ↔
        request.allow_frequency_change = true) ∧
      ((changesMask request &&& SDL_AUDIO_ALLOW_FORMAT_CHANGE ≠ 0) ↔
        request.allow_format_change = true) ∧
      ((changesMask request &&& SDL_AUDIO_ALLOW_CHANNELS_CHANGE ≠ 0) ↔
        request.allow_channels_change = true)) ∧
    (∀ (request : DefaultAudioQueueRequest)
        (native : SDL_AudioSpec → Nat → Nat × SDL_AudioSpec)
        (lastError : String) (devid : Nat) (obtained : SDL_AudioSpec),
      native (desiredSpecOf request) (changesMask request) = (devid, obtained) →
      devid ≠ 0 →
      open_default_audio_queue request native lastError =
        .ok ⟨devid, obtained.freq, obtained.format, obtained.channels,
             obtained.silence, obtained.samples, obtained.size⟩) := by
  constructor
  · intro request
    cases hf : request.allow_frequency_change <;>
      cases hm : request.allow_format_change <;>
        cases hc : request.allow_channels_change <;>
          simp [changesMask, hf, hm, hc, SDL_AUDIO_ALLOW_FREQUENCY_CHANGE,
            SDL_AUDIO_ALLOW_FORMAT_CHANGE, SDL_AUDIO_ALLOW_CHANNELS_CHANGE] <;>
            decide
  · intro request native lastError devid obtained hnative hdev
    simp [open_default_audio_queue, hnative, hdev]

/-- C8 witness: a request permitting frequency and channels changes but not
format changes produces mask bits 1 and 4 but not 2, and a successful
native call's obtained spec is copied into the queue fields verbatim. -/
theorem C8_audio_queue_negotiation_witness :
    (changesMask ⟨48000, 0x8010, 2, 1024, true, false, true⟩ &&&
      SDL_AUDIO_ALLOW_FREQUENCY_CHANGE ≠ 0) ∧
    (changesMask ⟨48000, 0x8010, 2, 1024, true, false, true⟩ &&&
      SDL_AUDIO_ALLOW_CHANNELS_CHANGE ≠ 0) ∧
    open_default_audio_queue ⟨48000, 0x8010, 2, 1024, true, false, true⟩
        (fun _ _ => (5, ⟨44100, 33056, 6, 128, 512, 8192⟩)) "err" =
      .ok ⟨5, 44100, 33056, 6, 128, 512, 8192⟩ :=
  ⟨((C8_audio_queue_negotiation.1 ⟨48000, 0x8010, 2, 1024, true, false, true⟩).1).mpr rfl,
   ((C8_audio_queue_negotiation.1 ⟨48000, 0x8010, 2, 1024, true, false, true⟩).2.2).mpr rfl,
   C8_audio_queue_negotiation.2 ⟨48000, 0x8010, 2, 1024, true, false, true⟩
     (fun _ _ => (5, ⟨44100, 33056, 6, 128, 512, 8192⟩)) "err" 5
     ⟨44100, 33056, 6, 128, 512, 8192⟩ rfl (by decide)⟩

/-- Helper: converting a named format to its code and back recovers the
named format. -/
theorem fromCode_toCode (pf : PixelFormatEnum) :
    PixelFormatEnum.fromCode pf.toCode = pf := by
  cases pf <;> rfl

/-- C9 counterexample: a native display-mode record whose format code is
not one of the modeled codes (here code 1) does not round-trip unmodified:
the format collapses to `Unknown` (code 0). -/
theorem C9_display_mode_counterexample :
    DisplayMode.toSDL (DisplayMode.fromSDL ⟨1, 0, 0, 0, 0⟩) ≠
      (⟨1, 0, 0, 0, 0⟩ : SDL_DisplayMode) := by decide

/-- C9 amended: caller-constructed display modes always carry a null
driver-data field; round-tripping a native record preserves width, height,
refresh rate and driver data unconditionally, and preserves the format
field whenever it is one of the modeled format codes. -/
theorem C9_display_mode_amended :
    (∀ (format : PixelFormatEnum) (width height refresh_rate : Int),
      (DisplayMode.new format width height refresh_rate).driver_data = 0) ∧
    (∀ m : SDL_DisplayMode,
      (DisplayMode.toSDL (DisplayMode.fromSDL m)).w = m.w ∧
      (DisplayMode.toSDL (DisplayMode.fromSDL m)).h = m.h ∧
      (DisplayMode.toSDL (DisplayMode.fromSDL m)).refresh_rate = m.refresh_rate ∧
      (DisplayMode.toSDL (DisplayMode.fromSDL m)).driverdata = m.driverdata) ∧
    (∀ (m : SDL_DisplayMode) (pf : PixelFormatEnum), m.format = pf.toCode →
      DisplayMode.toSDL (DisplayMode.fromSDL m) = m) := by
  refine ⟨fun _ _ _ _ => rfl, fun m => ⟨rfl, rfl, rfl, rfl⟩, ?_⟩
  intro m pf h
  cases m
  simp only at h
  subst h
  simp [DisplayMode.fromSDL, DisplayMode.toSDL, fromCode_toCode]

/-- C9 witness: a native record with the RGBA8888 code round-trips
unmodified, driver data included. -/
theorem C9_display_mode_amended_witness :
    DisplayMode.toSDL (DisplayMode.fromSDL ⟨0x16462004, 800, 600, 60, 7⟩) =
      (⟨0x16462004, 800, 600, 60, 7⟩ : SDL_DisplayMode) :=
  C9_display_mode_amended.2.2 ⟨0x16462004, 800, 600, 60, 7⟩ .RGBA8888 rfl

end Beryllium
